import Mathlib

/-!
Shallow embedding of the SSAP sandbox-session service
(`demo/langgraph/sandbox_sessions_app.py`).

Modelling conventions:
* UTC instants are integers (seconds since the epoch); `datetime.now(UTC)`
  is modelled by a clock stream `List Int` from which every time read pops
  the next value (`tick`).  `timedelta(minutes=m)` is `60 * m` seconds and
  `timedelta(hours=h)` is `3600 * h` seconds.
* The cache backend (`cache_get` / `cache_set` of `langgraph_api.cache`)
  is an association list from key to `(payload, expiry instant)`; a write
  with TTL `d` performed at instant `t` stores expiry `t + d`, and a read
  at instant `t` returns the payload while `t ≤ expiry`.
* JWTs are modelled structurally: a token is its header algorithm, its
  claims map, and the key it was signed with; an HMAC-SHA256 signature
  verifies exactly when the verifying secret equals the signing key.
* `jwt.encode` / `jwt.decode` are the PyJWT 2.x library (an external
  dependency, not part of this repository); `jwtDecode` below models its
  documented validation order: algorithm, signature, required claims,
  iat, nbf, exp, issuer, audience.
* Nondeterministic inputs (fresh session ids from `uuid4`, sandboxes
  returned by the provider, `jti` random strings) are explicit inputs.
* Error-message literals follow the source except that the ASCII
  single-quote characters some messages put around interpolated values
  are omitted.
-/

namespace SSAP

/-- Error raised by `_error(status, code, message)`: an `HTTPException`
whose JSON detail carries the code and message. -/
structure Err where
  status : Nat
  code : String
  message : String
deriving DecidableEq, Repr

/-- Builds the error value, as `_error` does. -/
def mkError (status : Nat) (code message : String) : Err :=
  ⟨status, code, message⟩

/-- The `retryable` flag of the error envelope: `status in {423, 429, 503}`. -/
def Err.retryable (e : Err) : Bool :=
  e.status == 423 || e.status == 429 || e.status == 503

/-- Process-wide configuration read from the environment at startup
(`_jwt_secret`, `_jwt_issuer`, `_langsmith_api_key`, `_provider`,
`_caps`, `_ttl_minutes`, `_session_max_hours`, `_cache_prefix`). -/
structure Config where
  jwtSecret : String
  jwtIssuer : String
  apiKey : String
  providerTag : String
  caps : List String
  ttlMinutes : Int
  sessionMaxHours : Int
  cachePfx : String
deriving DecidableEq, Repr

/-- The `SessionRecord` TypedDict. -/
structure SessionRecord where
  session_id : String
  thread_id : String
  principal_id : String
  sandbox_name : String
  provider : String
  dataplane_url : String
  created_at : Int
  session_expires_at : Int
deriving DecidableEq, Repr

/-- A JSON-ish claim value: JWT claims are strings, integers, or lists of
strings (the `caps` claim). -/
inductive CVal where
  | s (v : String)
  | i (v : Int)
  | l (v : List String)
deriving DecidableEq, Repr

/-- Python truthiness of a claim value (`not x`). -/
def CVal.truthy : CVal → Bool
  | .s v => v ≠ ""
  | .i v => v ≠ 0
  | .l v => !v.isEmpty

/-- A claims dictionary: association list from claim name to value. -/
abbrev Claims := List (String × CVal)

/-- Dictionary lookup `claims.get(k)`. -/
def getClaim (c : Claims) (k : String) : Option CVal :=
  (c.find? (fun p => p.1 == k)).map (fun p => p.2)

/-- Structural model of a compact JWS: header algorithm, payload claims,
and the HMAC key it was signed with.  Signature verification under secret
`s` succeeds exactly when `key = s` (HMAC-SHA256 modelled abstractly). -/
structure Token where
  alg : String
  claims : Claims
  key : String
deriving DecidableEq, Repr

/-- Outcome of `jwt.decode`. -/
inductive JwtResult where
  | ok (c : Claims)
  | expired
  | invalid (reason : String)
deriving DecidableEq, Repr

/-- Continuation of `jwtDecode` from the `iss` check on (see
`jwtDecode`). -/
def jwtDecodeIss (tok : Token) (issuer : String) : JwtResult :=
  match getClaim tok.claims "iss" with
  | none => .invalid "missing iss"
  | some v =>
    if v ≠ .s issuer then .invalid "issuer"
    else match getClaim tok.claims "aud" with
    | some a => if a.truthy then .invalid "audience" else .ok tok.claims
    | none => .ok tok.claims

/-- Continuation of `jwtDecode` from the `exp` check on (see `jwtDecode`). -/
def jwtDecodeExp (tok : Token) (issuer : String) (now : Int) : JwtResult :=
  match getClaim tok.claims "exp" with
  | some (.s _) | some (.l _) => .invalid "exp must be an integer"
  | some (.i e) =>
    if e ≤ now then .expired
    else jwtDecodeIss tok issuer
  | none => jwtDecodeIss tok issuer

/-- Modelled external dependency: PyJWT 2.x `jwt.decode(token, secret,
algorithms=["HS256"], issuer=issuer, options={"require": required})`.
Validation order follows the library: header algorithm against the allow
list, signature, required-claims presence, `iat` (must be an integer),
`nbf` (immature token), `exp` (past expiry, `jwtDecodeExp`), `iss`
equality and `aud` (`jwtDecodeIss`; `aud` is rejected when present and
truthy since no audience is passed).  `expired` corresponds to
`ExpiredSignatureError`; every `invalid` outcome corresponds to some
other `InvalidTokenError`.  Python's coercion of numeric strings by
`int(...)` is not modelled: a string-valued `iat`, `nbf` or `exp` is
treated as non-integer. -/
def jwtDecode (tok : Token) (secret issuer : String) (required : List String)
    (now : Int) : JwtResult :=
  if tok.alg ≠ "HS256" then .invalid "algorithm"
  else if tok.key ≠ secret then .invalid "signature"
  else match required.find? (fun k => (getClaim tok.claims k).isNone) with
  | some k => .invalid ("missing required claim " ++ k)
  | none =>
    match getClaim tok.claims "iat" with
    | some (.s _) | some (.l _) => .invalid "iat must be an integer"
    | some (.i _) | none =>
      match getClaim tok.claims "nbf" with
      | some (.s _) | some (.l _) => .invalid "nbf must be an integer"
      | some (.i nbf) =>
        if now < nbf then .invalid "immature"
        else jwtDecodeExp tok issuer now
      | none => jwtDecodeExp tok issuer now

/-- `_claims_from_token`: decode with the configured secret and issuer,
requiring `{exp, iat, sid, sub}`; `ExpiredSignatureError` maps to 401
`TOKEN_EXPIRED`, every other `InvalidTokenError` to 401 `UNAUTHENTICATED`. -/
def claims_from_token (cfg : Config) (tok : Token) (now : Int) :
    Except Err Claims :=
  match jwtDecode tok cfg.jwtSecret cfg.jwtIssuer ["exp", "iat", "sid", "sub"] now with
  | .ok c => .ok c
  | .expired => .error (mkError 401 "TOKEN_EXPIRED" "Token expired")
  | .invalid _ => .error (mkError 401 "UNAUTHENTICATED" "Invalid token")

/-- `_require_capability`: `caps = claims.get("caps", [])`, then
`cap not in caps`.  Python `in` on a string value is a substring test;
`in` on an integer raises `TypeError`, surfacing as a 500 from the
framework. -/
def require_capability (claims : Claims) (cap : String) : Except Err Unit :=
  match (getClaim claims "caps").getD (.l []) with
  | .l cs =>
    if cap ∈ cs then .ok ()
    else .error (mkError 403 "CAPABILITY_DENIED" ("Missing capability: " ++ cap))
  | .s v =>
    if List.IsInfix cap.data v.data then .ok ()
    else .error (mkError 403 "CAPABILITY_DENIED" ("Missing capability: " ++ cap))
  | .i _ => .error (mkError 500 "INTERNAL" "TypeError")

/-! ### Clock stream -/

/-- One `datetime.now(UTC)` read: pop the next instant off the clock
stream (an exhausted stream reads 0; theorems always supply enough). -/
def tick : List Int → Int × List Int
  | [] => (0, [])
  | t :: r => (t, r)

/-! ### Session store (cache backend) -/

/-- The two TTL-keyed maps behind `cache_get` / `cache_set`: sessions map
a key to an optional `SessionRecord` payload (explicitly cleared entries
hold `none`), bindings map a key to an optional session-id payload.  Each
entry carries its absolute expiry instant. -/
structure Store where
  sessions : List (String × (Option SessionRecord × Int))
  bindings : List (String × (Option String × Int))
deriving DecidableEq, Repr

/-- Raw association-list lookup (ignores expiry). -/
def lookupEntry {α : Type} (m : List (String × α)) (k : String) : Option α :=
  (m.find? (fun p => p.1 == k)).map (fun p => p.2)

/-- Overwrite the entry under `k`. -/
def setEntry {α : Type} (m : List (String × α)) (k : String) (v : α) :
    List (String × α) :=
  (k, v) :: m.filter (fun p => p.1 != k)

/-- `cache_get` at instant `now`: the payload while the entry is alive. -/
def cacheGetAt {α : Type} (m : List (String × (Option α × Int))) (k : String)
    (now : Int) : Option α :=
  match lookupEntry m k with
  | some (v, e) => if now ≤ e then v else none
  | none => none

/-- `_session_key`. -/
def session_key (cfg : Config) (sid : String) : String :=
  cfg.cachePfx ++ ":session:" ++ sid

/-- `_binding_key`; the sha256 hex digest of `"{principal}:{thread}"` is
modelled by the digested string itself (the digest is injective on the
strings arising here, including the source's collision between
`("a", "b:c")` and `("a:b", "c")`, which the model preserves). -/
def binding_key (cfg : Config) (principal_id thread_id : String) : String :=
  cfg.cachePfx ++ ":binding:" ++ principal_id ++ ":" ++ thread_id

/-- `_ttl_until`: seconds until `expiresAt`, floored at 1. -/
def ttl_until (expiresAt now : Int) : Int :=
  max 1 (expiresAt - now)

/-- `_load_session` read at instant `now`. -/
def load_session (cfg : Config) (st : Store) (sid : String) (now : Int) :
    Option SessionRecord :=
  cacheGetAt st.sessions (session_key cfg sid) now

/-- `_save_session` performed at instant `now`: TTL until the record's
`session_expires_at`. -/
def save_session (cfg : Config) (st : Store) (r : SessionRecord) (now : Int) :
    Store :=
  { st with
    sessions := setEntry st.sessions (session_key cfg r.session_id)
      (some r, now + ttl_until r.session_expires_at now) }

/-- `_load_bound_session_id` read at instant `now`: a live binding whose
session id is a non-empty string. -/
def load_bound_session_id (cfg : Config) (st : Store)
    (principal_id thread_id : String) (now : Int) : Option String :=
  match cacheGetAt st.bindings (binding_key cfg principal_id thread_id) now with
  | some sid => if sid = "" then none else some sid
  | none => none

/-- `_save_binding` performed at instant `now`. -/
def save_binding (cfg : Config) (st : Store)
    (principal_id thread_id sid : String) (expiresAt now : Int) : Store :=
  { st with
    bindings := setEntry st.bindings (binding_key cfg principal_id thread_id)
      (some sid, now + ttl_until expiresAt now) }

/-- `_clear_binding_and_session` performed at instant `now`: both entries
overwritten with `None` payloads and a 1-second TTL. -/
def clear_binding_and_session (cfg : Config) (st : Store) (r : SessionRecord)
    (now : Int) : Store :=
  { sessions := setEntry st.sessions (session_key cfg r.session_id)
      (none, now + 1),
    bindings := setEntry st.bindings
      (binding_key cfg r.principal_id r.thread_id) (none, now + 1) }

/-! ### Session manager -/

/-- The `mode` field of an acquire request. -/
inductive SandboxSessionMode where
  | get
  | ensure
deriving DecidableEq, Repr

/-- A sandbox descriptor after `_sandbox_name_from_payload` and
`_sandbox_dataplane_from_payload` validation. -/
structure Sandbox where
  name : String
  dataplane_url : String
deriving DecidableEq, Repr

/-- Outcome of one provider call (`_langsmith_get_box` or
`_langsmith_create_box`), including payload validation. -/
inductive ProviderResult where
  | ok (box : Sandbox)
  | err (e : Err)
deriving DecidableEq, Repr

/-- External nondeterminism consumed by the handlers: the clock stream,
the fresh-id stream feeding `_session_id`, and the provider outcomes. -/
structure Env where
  clk : List Int
  ids : List String
  boxes : List ProviderResult
deriving DecidableEq, Repr

/-- One provider call: pop the next outcome (an exhausted stream fails
503, matching an unreachable provider). -/
def takeBox : List ProviderResult → ProviderResult × List ProviderResult
  | [] => (.err (mkError 503 "BACKEND_UNAVAILABLE" "no sandbox"), [])
  | b :: r => (b, r)

/-- `_session_id()`: `"ssn_" + uuid4().hex[:12]`, the hex part drawn from
the fresh-id stream. -/
def takeId : List String → String × List String
  | [] => ("ssn_", [])
  | i :: r => ("ssn_" ++ i, r)

/-- Creation arm of `ensure_session_record` (no live binding found):
`mode=get` fails `SESSION_NOT_FOUND`; otherwise obtain a sandbox from the
provider (`get_sandbox(hint)` when a hint is given, else
`create_sandbox`; both are one consumed provider outcome), build the
record — `created_at` and `session_expires_at` come from two successive
clock reads — and write record then binding. -/
def ensureCreate (cfg : Config) (st : Store) (env : Env)
    (principal_id thread_id : String) (mode : SandboxSessionMode)
    (_sandbox_hint : Option String) :
    Except Err SessionRecord × Store × Env :=
  match mode with
  | .get =>
    (.error (mkError 404 "SESSION_NOT_FOUND"
      ("No sandbox session exists for thread " ++ thread_id)), st, env)
  | .ensure =>
    match takeBox env.boxes with
    | (.err e, boxes1) => (.error e, st, { env with boxes := boxes1 })
    | (.ok sb, boxes1) =>
      let (sid, ids1) := takeId env.ids
      let (t4, clk4) := tick env.clk
      let (t5, clk5) := tick clk4
      let record : SessionRecord :=
        { session_id := sid
          thread_id := thread_id
          principal_id := principal_id
          sandbox_name := sb.name
          provider := cfg.providerTag
          dataplane_url := sb.dataplane_url
          created_at := t4
          session_expires_at := t5 + 3600 * cfg.sessionMaxHours }
      let (t6, clk6) := tick clk5
      let st1 := save_session cfg st record t6
      let (t7, clk7) := tick clk6
      let st2 := save_binding cfg st1 principal_id thread_id record.session_id
        record.session_expires_at t7
      (.ok record, st2, { clk := clk7, ids := ids1, boxes := boxes1 })

/-- `ensure_session_record`: under the lock, look up the binding and its
record; a live, unexpired record is returned as-is; otherwise fall
through to the creation arm. -/
def ensure_session_record (cfg : Config) (st : Store) (env : Env)
    (principal_id thread_id : String) (mode : SandboxSessionMode)
    (sandbox_hint : Option String) :
    Except Err SessionRecord × Store × Env :=
  let (t1, clk1) := tick env.clk
  match load_bound_session_id cfg st principal_id thread_id t1 with
  | some sid =>
    let (t2, clk2) := tick clk1
    match load_session cfg st sid t2 with
    | some existing =>
      let (t3, clk3) := tick clk2
      if t3 ≤ existing.session_expires_at then
        (.ok existing, st, { env with clk := clk3 })
      else
        ensureCreate cfg st { env with clk := clk3 } principal_id thread_id
          mode sandbox_hint
    | none =>
      ensureCreate cfg st { env with clk := clk2 } principal_id thread_id
        mode sandbox_hint
  | none =>
    ensureCreate cfg st { env with clk := clk1 } principal_id thread_id
      mode sandbox_hint

/-- `get_owned_session_record`: load, check ownership, then expiry. -/
def get_owned_session_record (cfg : Config) (st : Store) (clk : List Int)
    (principal_id sid : String) : Except Err SessionRecord × List Int :=
  let (t1, clk1) := tick clk
  match load_session cfg st sid t1 with
  | none =>
    (.error (mkError 404 "SESSION_NOT_FOUND"
      ("Session " ++ sid ++ " does not exist")), clk1)
  | some r =>
    if r.principal_id ≠ principal_id then
      (.error (mkError 403 "FORBIDDEN" "Session principal mismatch"), clk1)
    else
      let (t2, clk2) := tick clk1
      if r.session_expires_at < t2 then
        (.error (mkError 410 "SESSION_EXPIRED" "Session exceeded max lifetime"),
          clk2)
      else (.ok r, clk2)

/-! ### Token issuance and relay authentication -/

/-- The claims payload built by `_issue_access_token` at instant `now`
with random `jti`. -/
def issueClaims (cfg : Config) (r : SessionRecord) (now : Int) (jti : String) :
    Claims :=
  [("iss", .s cfg.jwtIssuer),
   ("sub", .s r.principal_id),
   ("sid", .s r.session_id),
   ("thread_id", .s r.thread_id),
   ("sandbox_id", .s r.sandbox_name),
   ("caps", .l cfg.caps),
   ("iat", .i now),
   ("exp", .i (now + 60 * cfg.ttlMinutes)),
   ("jti", .s jti)]

/-- `_issue_access_token`: sign the claims payload with HMAC-SHA256 under
`jwt_secret` and return `(token, exp)`.  `jti` models
`secrets.token_urlsafe(12)` (12 random bytes, base64url). -/
def issue_access_token (cfg : Config) (r : SessionRecord) (now : Int)
    (jti : String) : Token × Int :=
  ({ alg := "HS256", claims := issueClaims cfg r now jti, key := cfg.jwtSecret },
    now + 60 * cfg.ttlMinutes)

/-- `_require_session_for_token`: verify the token (one clock read inside
`jwt.decode`), compare `claims.get("sid")` with the path session id,
check the capability, load the record (one read), compare
`claims.get("sub")` with the record's principal, check session expiry
(one read). -/
def require_session_for_token (cfg : Config) (st : Store) (tok : Token)
    (session_id : String) (required_cap : Option String) (clk : List Int) :
    Except Err SessionRecord × List Int :=
  let (t0, clk0) := tick clk
  match claims_from_token cfg tok t0 with
  | .error e => (.error e, clk0)
  | .ok claims =>
    if getClaim claims "sid" ≠ some (.s session_id) then
      (.error (mkError 403 "FORBIDDEN" "Token session mismatch"), clk0)
    else
      match (match required_cap with
             | some cap => require_capability claims cap
             | none => .ok ()) with
      | .error e => (.error e, clk0)
      | .ok _ =>
        let (t1, clk1) := tick clk0
        match load_session cfg st session_id t1 with
        | none =>
          (.error (mkError 404 "SESSION_NOT_FOUND"
            ("Session " ++ session_id ++ " does not exist")), clk1)
        | some r =>
          if getClaim claims "sub" ≠ some (.s r.principal_id) then
            (.error (mkError 403 "FORBIDDEN" "Token principal mismatch"), clk1)
          else
            let (t2, clk2) := tick clk1
            if r.session_expires_at < t2 then
              (.error (mkError 410 "SESSION_EXPIRED"
                "Session exceeded max lifetime"), clk2)
            else (.ok r, clk2)

/-- The two request headers consulted for relay authentication. -/
structure Headers where
  authorization : Option String
  xApiKey : Option String
deriving DecidableEq, Repr

/-- Python whitespace for `str.strip()`. -/
def isPySpace (c : Char) : Bool :=
  c = ' ' || c = '\t' || c = '\n' || c = '\r' || c = '\x0b' || c = '\x0c'

/-- Drops leading whitespace characters. -/
def dropLeadingWs : List Char → List Char
  | [] => []
  | c :: r => if isPySpace c then dropLeadingWs r else c :: r

/-- Python `s.strip()`: whitespace removed from both ends. -/
def pyStrip (s : String) : String :=
  ⟨dropLeadingWs ((dropLeadingWs s.data.reverse).reverse)⟩

/-- Helper for `splitMax1`: the characters before and after the first
space, when there is one. -/
def splitAtFirstSpace : List Char → Option (List Char × List Char)
  | [] => none
  | c :: r =>
    if c = ' ' then some ([], r)
    else match splitAtFirstSpace r with
      | some (l, t) => some (c :: l, t)
      | none => none

/-- Python `s.split(" ", 1)`: split at the first space only. -/
def splitMax1 (s : String) : List String :=
  match splitAtFirstSpace s.data with
  | some (l, t) => [⟨l⟩, ⟨t⟩]
  | none => [s]

/-- Python `s.lower()` (ASCII case folding, which is all the scheme
comparison needs). -/
def pyLower (s : String) : String := ⟨s.data.map Char.toLower⟩

/-- `_decode_bearer_token`: a falsy header is 401; otherwise the header
must split into a case-insensitive `bearer` scheme and a token part. -/
def decode_bearer_token (auth_header : Option String) : Except Err String :=
  match auth_header with
  | none => .error (mkError 401 "UNAUTHENTICATED" "Missing Authorization header")
  | some s =>
    if s = "" then
      .error (mkError 401 "UNAUTHENTICATED" "Missing Authorization header")
    else
      match splitMax1 s with
      | [scheme, tokenPart] =>
        if pyLower scheme = "bearer" then .ok (pyStrip tokenPart)
        else .error (mkError 401 "UNAUTHENTICATED" "Expected Bearer token")
      | _ => .error (mkError 401 "UNAUTHENTICATED" "Expected Bearer token")

/-- The `X-Api-Key` fallback arm of `_decode_access_token`. -/
def xApiKeyToken (hs : Headers) : Except Err String :=
  match hs.xApiKey with
  | some k =>
    if pyStrip k ≠ "" then .ok (pyStrip k)
    else .error (mkError 401 "UNAUTHENTICATED" "Missing access token")
  | none => .error (mkError 401 "UNAUTHENTICATED" "Missing access token")

/-- `_decode_access_token`: a truthy `Authorization` header is decoded as
a bearer token (its failure is final); only an absent or empty header
falls through to `X-Api-Key`. -/
def decode_access_token (hs : Headers) : Except Err String :=
  match hs.authorization with
  | some a => if a ≠ "" then decode_bearer_token (some a) else xApiKeyToken hs
  | none => xApiKeyToken hs

/-- `_require_session_for_principal`: extract the token string from the
headers, parse it as a compact JWS (`parse`; an unparseable string is a
`DecodeError` inside `jwt.decode`, hence 401 `UNAUTHENTICATED`), then run
the token/session checks. -/
def require_session_for_principal (cfg : Config) (st : Store)
    (parse : String → Option Token) (hs : Headers) (session_id : String)
    (required_cap : Option String) (clk : List Int) :
    Except Err SessionRecord × List Int :=
  match decode_access_token hs with
  | .error e => (.error e, clk)
  | .ok s =>
    match parse s with
    | none => (.error (mkError 401 "UNAUTHENTICATED" "Invalid token"), clk)
    | some tok => require_session_for_token cfg st tok session_id required_cap clk

/-- Authentication/validation portion of `relay_execute` (the upstream
proxying is outside these claims). -/
def relay_execute_auth (cfg : Config) (st : Store)
    (parse : String → Option Token) (hs : Headers) (session_id : String)
    (clk : List Int) : Except Err SessionRecord × List Int :=
  require_session_for_principal cfg st parse hs session_id (some "execute") clk

/-- Authentication/validation portion of `relay_upload`: the mandatory
`path` query parameter is checked first (`if not path`), before any token
handling. -/
def relay_upload_auth (cfg : Config) (st : Store)
    (parse : String → Option Token) (hs : Headers) (path : Option String)
    (session_id : String) (clk : List Int) :
    Except Err SessionRecord × List Int :=
  match path with
  | none =>
    (.error (mkError 400 "INVALID_REQUEST" "Query parameter path is required"),
      clk)
  | some p =>
    if p = "" then
      (.error (mkError 400 "INVALID_REQUEST" "Query parameter path is required"),
        clk)
    else require_session_for_principal cfg st parse hs session_id (some "upload") clk

/-- Authentication/validation portion of `relay_download`, shaped exactly
like `relay_upload`. -/
def relay_download_auth (cfg : Config) (st : Store)
    (parse : String → Option Token) (hs : Headers) (path : Option String)
    (session_id : String) (clk : List Int) :
    Except Err SessionRecord × List Int :=
  match path with
  | none =>
    (.error (mkError 400 "INVALID_REQUEST" "Query parameter path is required"),
      clk)
  | some p =>
    if p = "" then
      (.error (mkError 400 "INVALID_REQUEST" "Query parameter path is required"),
        clk)
    else require_session_for_principal cfg st parse hs session_id (some "download") clk

/-! ### Session endpoints -/

/-- `refresh_sandbox_session` body after principal extraction: `get_owned`
(two reads), mint a token (one read), re-save the record (one read) and
re-save the binding under the path-param session id (one read). -/
def refresh_sandbox_session (cfg : Config) (st : Store) (clk : List Int)
    (principal_id sid jti : String) :
    Except Err (Token × Int) × Store × List Int :=
  match get_owned_session_record cfg st clk principal_id sid with
  | (.error e, clk1) => (.error e, st, clk1)
  | (.ok r, clk1) =>
    let (tn, clk2) := tick clk1
    let (tok, texp) := issue_access_token cfg r tn jti
    let (ts1, clk3) := tick clk2
    let st1 := save_session cfg st r ts1
    let (ts2, clk4) := tick clk3
    let st2 := save_binding cfg st1 principal_id r.thread_id sid
      r.session_expires_at ts2
    (.ok (tok, texp), st2, clk4)

/-- `release_sandbox_session` body after principal extraction: `get_owned`
then clear both entries (one read for the 1-second tombstone TTLs). -/
def release_sandbox_session (cfg : Config) (st : Store) (clk : List Int)
    (principal_id sid : String) : Except Err Unit × Store × List Int :=
  match get_owned_session_record cfg st clk principal_id sid with
  | (.error e, clk1) => (.error e, st, clk1)
  | (.ok r, clk1) =>
    let (tc, clk2) := tick clk1
    (.ok (), clear_binding_and_session cfg st r tc, clk2)

/-! ### Response bodies -/

/-- The nested `sandbox` object of an acquire response. -/
structure SandboxInfo where
  id : String
  provider : String
  http_base_url : String
  ws_base_url : String
deriving DecidableEq, Repr

/-- The body built by `_acquire_response` (`expires_at` kept as the
instant that `_iso` serialises). -/
structure AcquireResponse where
  session_id : String
  thread_id : String
  sandbox : SandboxInfo
  token : Token
  expires_at : Int
deriving DecidableEq, Repr

/-- `base_url` scheme swap performed by `_relay_ws_base_url`. -/
def wsScheme (s : String) : String :=
  (s.replace "http://" "ws://").replace "https://" "wss://"

/-- `_acquire_response`: built from the record, the request base URL and
the freshly minted token; it reads no configuration. -/
def acquire_response (r : SessionRecord) (baseUrl : String) (tok : Token)
    (texp : Int) : AcquireResponse :=
  { session_id := r.session_id
    thread_id := r.thread_id
    sandbox :=
      { id := r.sandbox_name
        provider := r.provider
        http_base_url := baseUrl ++ "/v1/sandbox/relay/" ++ r.session_id
        ws_base_url := wsScheme baseUrl ++ "/v1/sandbox/relay/" ++ r.session_id }
    token := tok
    expires_at := texp }

/-! ### Store sanity invariant and concrete fixtures -/

/-- Well-formedness of a store, holding in every state the service can
reach: every live-or-dead session entry promises its payload record until
at least the record's `session_expires_at` (writes use
`ttl=_ttl_until(session_expires_at)`), and every binding entry outlives
the `session_expires_at` of whatever record its session id maps to
(record and binding are written with the same TTL base). -/
def StoreWF (cfg : Config) (st : Store) : Prop :=
  (∀ (k : String) (r : SessionRecord) (e : Int),
     lookupEntry st.sessions k = some (some r, e) → r.session_expires_at ≤ e)
  ∧ (∀ (k sid : String) (e : Int),
     lookupEntry st.bindings k = some (some sid, e) →
     ∀ (r : SessionRecord) (e' : Int),
       lookupEntry st.sessions (session_key cfg sid) = some (some r, e') →
       r.session_expires_at ≤ e)

/-- Concrete configuration used by witnesses: the source defaults. -/
def cfgW : Config :=
  ⟨"dev-only-ssap-secret-change-me", "ssap-demo", "lsv2-pt-api-key",
    "langsmith", ["execute", "upload", "download"], 60, 8, "ssap:mvp"⟩

/-- A second configuration sharing everything with `cfgW` except the two
secrets. -/
def cfgW2 : Config :=
  ⟨"another-signing-secret", "ssap-demo", "another-api-key",
    "langsmith", ["execute", "upload", "download"], 60, 8, "ssap:mvp"⟩

/-- A stored session record owned by `alice`. -/
def recW : SessionRecord :=
  ⟨"ssn_1", "t-1", "alice", "box-1", "langsmith", "http://dp", 100, 28900⟩

/-- A store holding `recW` and its binding, as written by `ensure`. -/
def stW : Store :=
  ⟨[(session_key cfgW "ssn_1", (some recW, 28900))],
   [(binding_key cfgW "alice" "t-1", (some "ssn_1", 28900))]⟩

/-- A token issued from `recW` at instant 200. -/
def tokW : Token := (issue_access_token cfgW recW 200 "rAnDoMjTi").1

/-- A correctly signed, unexpired token for session `ssn_1` whose subject
is `mallory` and whose `caps` claim is empty. -/
def tokMallory : Token :=
  ⟨"HS256",
   [("exp", .i 99999), ("iat", .i 0), ("sid", .s "ssn_1"),
    ("sub", .s "mallory"), ("iss", .s "ssap-demo"), ("caps", .l [])],
   "dev-only-ssap-secret-change-me"⟩

/-- A correctly signed token with all required claims, a long-past `exp`,
and a wrong issuer. -/
def tokC6 : Token :=
  ⟨"HS256",
   [("exp", .i 0), ("iat", .i 0), ("sid", .s "ssn_1"),
    ("sub", .s "alice"), ("iss", .s "evil")],
   "dev-only-ssap-secret-change-me"⟩

/-- The record created by `ensure` from `envC4` on an empty store. -/
def recC4 : SessionRecord :=
  ⟨"ssn_abc", "t-2", "alice", "box-2", "langsmith", "http://dp2", 5, 28807⟩

/-- Environment for a concrete creation run: clock reads 0 (binding
lookup), 5 (`created_at`), 7 (`session_expires_at` base), 8 and 9 (the
two store writes). -/
def envC4 : Env := ⟨[0, 5, 7, 8, 9], ["abc"], [.ok ⟨"box-2", "http://dp2"⟩]⟩

/-- The empty store. -/
def emptyStore : Store := ⟨[], []⟩

/-- The store after running `ensure` with `envC4` on the empty store. -/
def stC4 : Store :=
  ⟨[(session_key cfgW "ssn_abc", (some recC4, 28807))],
   [(binding_key cfgW "alice" "t-2", (some "ssn_abc", 28807))]⟩

/-! ### Helper lemmas -/

/-- A TTL write made at instant `t` keeps the entry alive through the
target instant `e`. -/
theorem le_add_ttl (e t : Int) : e ≤ t + ttl_until e t := by
  unfold ttl_until
  rw [max_def]
  split <;> omega

/-- A live cache read comes from an entry whose expiry has not passed. -/
theorem cacheGetAt_inv {α : Type} {m : List (String × (Option α × Int))}
    {k : String} {now : Int} {v : α} (h : cacheGetAt m k now = some v) :
    ∃ e, lookupEntry m k = some (some v, e) ∧ now ≤ e := by
  unfold cacheGetAt at h
  split at h
  · rename_i p e heq
    split at h
    · rename_i hle
      exact ⟨e, by rw [heq, h], hle⟩
    · cases h
  · cases h

/-- An entry alive at `now` is returned by the read. -/
theorem cacheGetAt_mono {α : Type} {m : List (String × (Option α × Int))}
    {k : String} {now : Int} {v : α} {e : Int}
    (h : lookupEntry m k = some (some v, e)) (hle : now ≤ e) :
    cacheGetAt m k now = some v := by
  unfold cacheGetAt
  rw [h]
  simp [hle]

/-- Inversion for a successful binding lookup. -/
theorem load_bound_inv {cfg : Config} {st : Store} {p t : String} {now : Int}
    {sid : String} (h : load_bound_session_id cfg st p t now = some sid) :
    sid ≠ "" ∧ cacheGetAt st.bindings (binding_key cfg p t) now = some sid := by
  unfold load_bound_session_id at h
  split at h
  · rename_i s heq
    split at h
    · cases h
    · rename_i hne
      cases h
      exact ⟨hne, heq⟩
  · cases h

/-- A live non-empty binding entry is found by `_load_bound_session_id`. -/
theorem load_bound_mono {cfg : Config} {st : Store} {p t : String} {now : Int}
    {sid : String} (h : cacheGetAt st.bindings (binding_key cfg p t) now = some sid)
    (hne : sid ≠ "") : load_bound_session_id cfg st p t now = some sid := by
  unfold load_bound_session_id
  rw [h]
  simp [hne]

/-- Looking up the key just written. -/
theorem lookupEntry_setEntry_self {α : Type} (m : List (String × α))
    (k : String) (v : α) : lookupEntry (setEntry m k v) k = some v := by
  unfold lookupEntry setEntry
  simp [List.find?]

/-- `find?` by one key ignores filtering away a different key. -/
theorem find?_filter_ne {α : Type} (m : List (String × α)) (k k' : String)
    (h : k' ≠ k) :
    List.find? (fun p => p.1 == k') (m.filter (fun p => p.1 != k))
      = List.find? (fun p => p.1 == k') m := by
  induction m with
  | nil => rfl
  | cons a l ih =>
    rcases eq_or_ne a.1 k with hk | hk
    · have h1 : (a.1 != k) = false := by simp [hk]
      have h2 : (a.1 == k') = false := by
        simp [hk]
        exact fun hc => h hc.symm
      simp [List.filter_cons, List.find?_cons, h1, h2, ih]
    · have h1 : (a.1 != k) = true := by simp [hk]
      cases hak : (a.1 == k') <;>
        simp [List.filter_cons, List.find?_cons, h1, hak, ih]

/-- Looking up a different key than the one just written. -/
theorem lookupEntry_setEntry_ne {α : Type} (m : List (String × α))
    (k k' : String) (v : α) (h : k' ≠ k) :
    lookupEntry (setEntry m k v) k' = lookupEntry m k' := by
  unfold lookupEntry setEntry
  have hne : ¬((fun p : String × α => p.1 == k') (k, v) = true) := by
    simp
    exact fun hc => h hc.symm
  rw [List.find?_cons_of_neg (m.filter (fun p => p.1 != k)) hne,
    find?_filter_ne m k k' h]

/-- `jwt.decode` only ever succeeds with the token's own claims. -/
theorem jwtDecodeIss_ok {tok : Token} {issuer : String} {c : Claims}
    (h : jwtDecodeIss tok issuer = .ok c) : c = tok.claims := by
  unfold jwtDecodeIss at h
  repeat' split at h
  all_goals simp_all

/-- `jwtDecodeExp` only ever succeeds with the token's own claims. -/
theorem jwtDecodeExp_ok {tok : Token} {issuer : String} {now : Int} {c : Claims}
    (h : jwtDecodeExp tok issuer now = .ok c) : c = tok.claims := by
  unfold jwtDecodeExp at h
  repeat' split at h
  all_goals first
  | exact jwtDecodeIss_ok h
  | simp_all

/-- `jwtDecode` only ever succeeds with the token's own claims. -/
theorem jwtDecode_ok {tok : Token} {secret issuer : String}
    {required : List String} {now : Int} {c : Claims}
    (h : jwtDecode tok secret issuer required now = .ok c) : c = tok.claims := by
  unfold jwtDecode at h
  repeat' split at h
  all_goals first
  | exact jwtDecodeExp_ok h
  | simp_all

/-- `_claims_from_token` only ever succeeds with the token's own claims. -/
theorem claims_from_token_ok {cfg : Config} {tok : Token} {now : Int}
    {c : Claims} (h : claims_from_token cfg tok now = .ok c) : c = tok.claims := by
  unfold claims_from_token at h
  split at h
  · rename_i c' heq
    cases h
    exact jwtDecode_ok heq
  · cases h
  · cases h

/-- A verified token whose `sid` claim is not the path session id fails
403 at the session-mismatch check. -/
theorem require_token_sid_mismatch {cfg : Config} {st : Store} {tok : Token}
    {session_id : String} {cap : Option String} {t0 t1 t2 : Int}
    {rest : List Int} {c : Claims}
    (hver : claims_from_token cfg tok t0 = .ok c)
    (hne : getClaim c "sid" ≠ some (.s session_id)) :
    (require_session_for_token cfg st tok session_id cap
      (t0 :: t1 :: t2 :: rest)).1
      = .error (mkError 403 "FORBIDDEN" "Token session mismatch") := by
  simp only [require_session_for_token, tick]
  rw [hver]
  simp [hne]

/-- A verified token that passes the session-id and capability checks but
whose `sub` claim differs from the loaded record's principal fails 403 at
the principal-mismatch check, with no expiry condition involved. -/
theorem require_token_principal_mismatch {cfg : Config} {st : Store}
    {tok : Token} {session_id : String} {cap : Option String} {t0 t1 t2 : Int}
    {rest : List Int} {c : Claims} {r : SessionRecord}
    (hver : claims_from_token cfg tok t0 = .ok c)
    (hsid : getClaim c "sid" = some (.s session_id))
    (hcap : ∀ cp, cap = some cp → require_capability c cp = .ok ())
    (hload : load_session cfg st session_id t1 = some r)
    (hsub : getClaim c "sub" ≠ some (.s r.principal_id)) :
    (require_session_for_token cfg st tok session_id cap
      (t0 :: t1 :: t2 :: rest)).1
      = .error (mkError 403 "FORBIDDEN" "Token principal mismatch") := by
  simp only [require_session_for_token, tick]
  rw [hver]
  rcases cap with _ | cp
  · simp [hsid, hload, hsub]
  · simp [hsid, hcap cp rfl, hload, hsub]

/-! ### Claim C7 -/

/-- Claim C7: token issuance — for every record, `issue` produces a token
whose claims are exactly the nine listed fields (`iss` the configured
issuer, `sub` the record's principal, `sid` the session id, `thread_id`,
`sandbox_id` the sandbox name, `caps` the configured capabilities, `iat`
the issue instant, `exp` that instant plus `token_ttl_minutes`, and the
supplied `jti`), signed HS256 under `jwt_secret`, returning
`(token, exp)`. -/
theorem C7_token_issuance :
    ∀ (cfg : Config) (r : SessionRecord) (now : Int) (jti : String),
      issue_access_token cfg r now jti
        = (⟨"HS256",
            [("iss", .s cfg.jwtIssuer), ("sub", .s r.principal_id),
             ("sid", .s r.session_id), ("thread_id", .s r.thread_id),
             ("sandbox_id", .s r.sandbox_name), ("caps", .l cfg.caps),
             ("iat", .i now), ("exp", .i (now + 60 * cfg.ttlMinutes)),
             ("jti", .s jti)],
            cfg.jwtSecret⟩, now + 60 * cfg.ttlMinutes) := by
  intro cfg r now jti
  rfl

/-! ### Claim C3 -/

/-- Claim C3: credential confinement — the claims embedded in an issued
token are exactly the nine listed fields; the token payload is unchanged
under any change of the JWT signing secret and provider API key (they
enter issuance only through the HMAC signing key), and the acquire
response body is built from the record, the base URL, the token and the
expiry alone. -/
theorem C3_credential_confinement :
    ∀ (cfg cfg' : Config),
      cfg'.jwtIssuer = cfg.jwtIssuer → cfg'.caps = cfg.caps →
      cfg'.ttlMinutes = cfg.ttlMinutes →
      ∀ (r : SessionRecord) (now : Int) (jti : String) (baseUrl : String),
        ((issue_access_token cfg r now jti).1.claims.map Prod.fst
          = ["iss", "sub", "sid", "thread_id", "sandbox_id", "caps", "iat",
             "exp", "jti"])
        ∧ (issue_access_token cfg r now jti).1.claims
            = (issue_access_token cfg' r now jti).1.claims
        ∧ acquire_response r baseUrl (issue_access_token cfg r now jti).1
            (issue_access_token cfg r now jti).2
          = { session_id := r.session_id
              thread_id := r.thread_id
              sandbox :=
                { id := r.sandbox_name
                  provider := r.provider
                  http_base_url := baseUrl ++ "/v1/sandbox/relay/" ++ r.session_id
                  ws_base_url :=
                    wsScheme baseUrl ++ "/v1/sandbox/relay/" ++ r.session_id }
              token := (issue_access_token cfg r now jti).1
              expires_at := now + 60 * cfg.ttlMinutes } := by
  intro cfg cfg' hiss hcaps httl r now jti baseUrl
  refine ⟨rfl, ?_, rfl⟩
  simp [issue_access_token, issueClaims, hiss, hcaps, httl]

/-- Witness for C3: two concrete configurations differing exactly in the
signing secret and the API key yield the same token payload. -/
theorem C3_witness :
    cfgW2.jwtIssuer = cfgW.jwtIssuer ∧ cfgW2.jwtSecret ≠ cfgW.jwtSecret
    ∧ cfgW2.apiKey ≠ cfgW.apiKey
    ∧ (issue_access_token cfgW recW 200 "rAnDoMjTi").1.claims
        = (issue_access_token cfgW2 recW 200 "rAnDoMjTi").1.claims :=
  ⟨rfl, by decide, by decide,
    (C3_credential_confinement cfgW cfgW2 rfl rfl rfl recW 200 "rAnDoMjTi"
      "http://host").2.1⟩

/-! ### Claim C10 -/

/-- Claim C10: a present, non-empty `Authorization` header is decoded as
a bearer header with `X-Api-Key` never consulted; every bearer-decode
failure is a 401 `UNAUTHENTICATED`; the accepted form is exactly a
first-space split into a case-insensitive `bearer` scheme and a token
part; `X-Api-Key` is consulted exactly when `Authorization` is absent or
empty. -/
theorem C10_auth_header_shadows_x_api_key :
    (∀ (a : String) (k : Option String), a ≠ "" →
       decode_access_token ⟨some a, k⟩ = decode_bearer_token (some a))
  ∧ (∀ (a : String) (e : Err), decode_bearer_token (some a) = .error e →
       e.status = 401 ∧ e.code = "UNAUTHENTICATED")
  ∧ (∀ (a scheme rest : String), a ≠ "" → splitMax1 a = [scheme, rest] →
       pyLower scheme = "bearer" →
       decode_bearer_token (some a) = .ok (pyStrip rest))
  ∧ (∀ (a : String), a ≠ "" →
       (∀ scheme rest, splitMax1 a = [scheme, rest] →
          pyLower scheme ≠ "bearer") →
       decode_bearer_token (some a)
         = .error (mkError 401 "UNAUTHENTICATED" "Expected Bearer token"))
  ∧ (∀ (k : String), pyStrip k ≠ "" →
       decode_access_token ⟨none, some k⟩ = .ok (pyStrip k)
       ∧ decode_access_token ⟨some "", some k⟩ = .ok (pyStrip k)) := by
  refine ⟨?_, ?_, ?_, ?_, ?_⟩
  · intro a k ha
    simp [decode_access_token, ha]
  · intro a e hb
    unfold decode_bearer_token at hb
    repeat' split at hb
    all_goals cases hb
    all_goals exact ⟨rfl, rfl⟩
  · intro a scheme rest ha hsp hb
    simp only [decode_bearer_token]
    rw [if_neg ha, hsp]
    simp [hb]
  · intro a ha hno
    simp only [decode_bearer_token]
    rw [if_neg ha]
    rcases hsp : splitMax1 a with _ | ⟨x, _ | ⟨y, _ | ⟨z, l⟩⟩⟩
    · rfl
    · rfl
    · have := hno x y hsp
      simp [this]
    · rfl
  · intro k hk
    constructor
    · simp [decode_access_token, xApiKeyToken, hk]
    · simp [decode_access_token, xApiKeyToken, hk]

/-- Witness for C10: a malformed `Authorization` header shadows a usable
`X-Api-Key`, and the same `X-Api-Key` is accepted once `Authorization`
is absent. -/
theorem C10_witness :
    decode_access_token ⟨some "Token abc", some "validtoken"⟩
      = .error (mkError 401 "UNAUTHENTICATED" "Expected Bearer token")
    ∧ decode_access_token ⟨none, some "validtoken"⟩ = .ok "validtoken" := by
  constructor
  · rw [C10_auth_header_shadows_x_api_key.1 "Token abc" (some "validtoken")
      (by decide)]
    rfl
  · exact (C10_auth_header_shadows_x_api_key.2.2.2.2 "validtoken" (by decide)).1

/-! ### Claim C9 -/

/-- Counterexample for claim C9: a relay upload request carrying no
credentials at all and no `path` parameter is rejected 400
`INVALID_REQUEST`, although token extraction on the same request would
fail 401 — the auth error the claim demands. -/
theorem C9_counterexample :
    (relay_upload_auth cfgW stW (fun _ => none) ⟨none, none⟩ none "ssn_1" []).1
      = .error (mkError 400 "INVALID_REQUEST" "Query parameter path is required")
    ∧ decode_access_token ⟨none, none⟩
      = .error (mkError 401 "UNAUTHENTICATED" "Missing access token") :=
  ⟨rfl, rfl⟩

/-- Claim C9 as amended: for upload and download the mandatory `path`
query parameter is validated first — a missing or empty `path` is
rejected 400 `INVALID_REQUEST` regardless of any credentials — and with
`path` present the handler is exactly the authentication/authorization
flow, so auth errors (401/403) arise only on requests that do carry
`path`. -/
theorem C9_path_checked_before_auth :
    ∀ (cfg : Config) (st : Store) (parse : String → Option Token)
      (hs : Headers) (sid : String) (clk : List Int),
      (relay_upload_auth cfg st parse hs none sid clk
        = (.error (mkError 400 "INVALID_REQUEST"
            "Query parameter path is required"), clk))
    ∧ (relay_download_auth cfg st parse hs none sid clk
        = (.error (mkError 400 "INVALID_REQUEST"
            "Query parameter path is required"), clk))
    ∧ (relay_upload_auth cfg st parse hs (some "") sid clk
        = (.error (mkError 400 "INVALID_REQUEST"
            "Query parameter path is required"), clk))
    ∧ (relay_download_auth cfg st parse hs (some "") sid clk
        = (.error (mkError 400 "INVALID_REQUEST"
            "Query parameter path is required"), clk))
    ∧ (∀ p, p ≠ "" →
        relay_upload_auth cfg st parse hs (some p) sid clk
          = require_session_for_principal cfg st parse hs sid (some "upload") clk
        ∧ relay_download_auth cfg st parse hs (some p) sid clk
          = require_session_for_principal cfg st parse hs sid
              (some "download") clk) := by
  intro cfg st parse hs sid clk
  refine ⟨rfl, rfl, rfl, rfl, fun p hp => ⟨?_, ?_⟩⟩ <;>
    simp [relay_upload_auth, relay_download_auth, hp]

/-- Witness for the amended C9 at a concrete request with `path` present
and no credentials. -/
theorem C9_witness :
    relay_upload_auth cfgW stW (fun _ => none) ⟨none, none⟩ (some "/x")
      "ssn_1" []
      = require_session_for_principal cfgW stW (fun _ => none) ⟨none, none⟩
          "ssn_1" (some "upload") [] :=
  ((C9_path_checked_before_auth cfgW stW (fun _ => none) ⟨none, none⟩
    "ssn_1" []).2.2.2.2 "/x" (by decide)).1

/-! ### Claim C6 -/

/-- Counterexample for claim C6: an HS256 token correctly signed under
the configured secret, carrying all required claims but a wrong issuer
and a long-past `exp`, is rejected `TOKEN_EXPIRED` — not the
`UNAUTHENTICATED` the claim assigns to a wrong issuer — because PyJWT
validates `exp` before `iss`. -/
theorem C6_counterexample :
    claims_from_token cfgW tokC6 1000
        = .error (mkError 401 "TOKEN_EXPIRED" "Token expired")
    ∧ tokC6.alg = "HS256" ∧ tokC6.key = cfgW.jwtSecret
    ∧ getClaim tokC6.claims "iss" ≠ some (.s cfgW.jwtIssuer) := by
  refine ⟨rfl, rfl, rfl, ?_⟩
  decide

/-- Claim C6 as amended: `verify` yields only success, 401
`UNAUTHENTICATED`, or 401 `TOKEN_EXPIRED`, with the checks applied in
PyJWT order — algorithm and signature, then presence of the required
claims `{exp, iat, sid, sub}`, then `exp`, then issuer.  A wrong
algorithm, bad signature, or missing required claim is `UNAUTHENTICATED`;
a signed token carrying the required claims with `exp` in the past is
`TOKEN_EXPIRED` even when the issuer is also wrong; the issuer check
rejects `UNAUTHENTICATED` only tokens that pass the expiry check. -/
theorem C6_verify_precedence :
    ∀ (cfg : Config) (tok : Token) (now : Int),
      (claims_from_token cfg tok now = .ok tok.claims
        ∨ claims_from_token cfg tok now
            = .error (mkError 401 "UNAUTHENTICATED" "Invalid token")
        ∨ claims_from_token cfg tok now
            = .error (mkError 401 "TOKEN_EXPIRED" "Token expired"))
    ∧ (tok.alg ≠ "HS256" ∨ tok.key ≠ cfg.jwtSecret →
        claims_from_token cfg tok now
          = .error (mkError 401 "UNAUTHENTICATED" "Invalid token"))
    ∧ (∀ k, k ∈ (["exp", "iat", "sid", "sub"] : List String) →
        getClaim tok.claims k = none →
        claims_from_token cfg tok now
          = .error (mkError 401 "UNAUTHENTICATED" "Invalid token"))
    ∧ (∀ e i, tok.alg = "HS256" → tok.key = cfg.jwtSecret →
        getClaim tok.claims "exp" = some (.i e) →
        getClaim tok.claims "iat" = some (.i i) →
        (getClaim tok.claims "sid").isSome →
        (getClaim tok.claims "sub").isSome →
        getClaim tok.claims "nbf" = none →
        e ≤ now →
        claims_from_token cfg tok now
          = .error (mkError 401 "TOKEN_EXPIRED" "Token expired"))
    ∧ (∀ e i, tok.alg = "HS256" → tok.key = cfg.jwtSecret →
        getClaim tok.claims "exp" = some (.i e) →
        getClaim tok.claims "iat" = some (.i i) →
        (getClaim tok.claims "sid").isSome →
        (getClaim tok.claims "sub").isSome →
        getClaim tok.claims "nbf" = none →
        now < e →
        getClaim tok.claims "iss" ≠ some (.s cfg.jwtIssuer) →
        claims_from_token cfg tok now
          = .error (mkError 401 "UNAUTHENTICATED" "Invalid token"))
    ∧ (∀ e i, tok.alg = "HS256" → tok.key = cfg.jwtSecret →
        getClaim tok.claims "exp" = some (.i e) →
        getClaim tok.claims "iat" = some (.i i) →
        (getClaim tok.claims "sid").isSome →
        (getClaim tok.claims "sub").isSome →
        getClaim tok.claims "nbf" = none →
        now < e →
        getClaim tok.claims "iss" = some (.s cfg.jwtIssuer) →
        getClaim tok.claims "aud" = none →
        claims_from_token cfg tok now = .ok tok.claims) := by
  intro cfg tok now
  refine ⟨?_, ?_, ?_, ?_, ?_, ?_⟩
  · rcases hd : jwtDecode tok cfg.jwtSecret cfg.jwtIssuer
      ["exp", "iat", "sid", "sub"] now with c | _ | r
    · have hc := jwtDecode_ok hd
      subst hc
      exact .inl (by simp [claims_from_token, hd])
    · exact .inr (.inr (by simp [claims_from_token, hd]))
    · exact .inr (.inl (by simp [claims_from_token, hd]))
  · intro h
    by_cases halg : tok.alg = "HS256"
    · rcases h with h | h
      · exact absurd halg h
      · simp [claims_from_token, jwtDecode, halg, h]
    · simp [claims_from_token, jwtDecode, halg]
  · intro k hk hnone
    by_cases halg : tok.alg = "HS256"
    · by_cases hkey : tok.key = cfg.jwtSecret
      · rcases hf : List.find? (fun k => (getClaim tok.claims k).isNone)
          ["exp", "iat", "sid", "sub"] with _ | k'
        · exfalso
          have := List.find?_eq_none.mp hf k hk
          simp [hnone] at this
        · simp [claims_from_token, jwtDecode, halg, hkey, hf]
      · simp [claims_from_token, jwtDecode, halg, hkey]
    · simp [claims_from_token, jwtDecode, halg]
  · intro e i halg hkey hexp hiat hsid hsub hnbf hle
    obtain ⟨vs, hvs⟩ := Option.isSome_iff_exists.mp hsid
    obtain ⟨vb, hvb⟩ := Option.isSome_iff_exists.mp hsub
    have hf : List.find? (fun k => (getClaim tok.claims k).isNone)
        ["exp", "iat", "sid", "sub"] = none := by
      rw [List.find?_eq_none]
      intro x hx
      simp only [List.mem_cons, List.not_mem_nil, or_false] at hx
      rcases hx with rfl | rfl | rfl | rfl <;>
        simp [hexp, hiat, hvs, hvb]
    simp [claims_from_token, jwtDecode, halg, hkey, hf, hiat, hnbf,
      jwtDecodeExp, hexp, hle]
  · intro e i halg hkey hexp hiat hsid hsub hnbf hlt hiss
    obtain ⟨vs, hvs⟩ := Option.isSome_iff_exists.mp hsid
    obtain ⟨vb, hvb⟩ := Option.isSome_iff_exists.mp hsub
    have hf : List.find? (fun k => (getClaim tok.claims k).isNone)
        ["exp", "iat", "sid", "sub"] = none := by
      rw [List.find?_eq_none]
      intro x hx
      simp only [List.mem_cons, List.not_mem_nil, or_false] at hx
      rcases hx with rfl | rfl | rfl | rfl <;>
        simp [hexp, hiat, hvs, hvb]
    have hnle : ¬ e ≤ now := by omega
    rcases hv : getClaim tok.claims "iss" with _ | v
    · simp [claims_from_token, jwtDecode, halg, hkey, hf, hiat, hnbf,
        jwtDecodeExp, hexp, hnle, jwtDecodeIss, hv]
    · have hvne : v ≠ .s cfg.jwtIssuer := by
        intro hcontra
        exact hiss (by rw [hv, hcontra])
      simp [claims_from_token, jwtDecode, halg, hkey, hf, hiat, hnbf,
        jwtDecodeExp, hexp, hnle, jwtDecodeIss, hv, hvne]
  · intro e i halg hkey hexp hiat hsid hsub hnbf hlt hiss haud
    obtain ⟨vs, hvs⟩ := Option.isSome_iff_exists.mp hsid
    obtain ⟨vb, hvb⟩ := Option.isSome_iff_exists.mp hsub
    have hf : List.find? (fun k => (getClaim tok.claims k).isNone)
        ["exp", "iat", "sid", "sub"] = none := by
      rw [List.find?_eq_none]
      intro x hx
      simp only [List.mem_cons, List.not_mem_nil, or_false] at hx
      rcases hx with rfl | rfl | rfl | rfl <;>
        simp [hexp, hiat, hvs, hvb]
    have hnle : ¬ e ≤ now := by omega
    simp [claims_from_token, jwtDecode, halg, hkey, hf, hiat, hnbf,
      jwtDecodeExp, hexp, hnle, jwtDecodeIss, hiss, haud]

/-- Witness for the amended C6 at the concrete expired wrong-issuer
token. -/
theorem C6_witness :
    claims_from_token cfgW tokC6 1000
      = .error (mkError 401 "TOKEN_EXPIRED" "Token expired") :=
  (C6_verify_precedence cfgW tokC6 1000).2.2.2.1 0 0 rfl rfl (by decide)
    (by decide) (by decide) (by decide) (by decide) (by decide)

/-! ### Claim C1 -/

/-- Claim C1: token-session binding at the relay — for a verified token,
a `sid` claim differing from the path session id is rejected 403
`FORBIDDEN`; after the record is loaded, a `sub` claim differing from the
record's `principal_id` is rejected 403 `FORBIDDEN`; hence a token issued
from record `R` is rejected `FORBIDDEN` for every session id other than
`R.session_id`. -/
theorem C1_token_session_binding :
    ∀ (cfg : Config) (st : Store) (tok : Token) (session_id : String)
      (cap : Option String) (t0 t1 t2 : Int) (rest : List Int) (c : Claims),
      claims_from_token cfg tok t0 = .ok c →
      ((getClaim c "sid" ≠ some (.s session_id) →
         (require_session_for_token cfg st tok session_id cap
           (t0 :: t1 :: t2 :: rest)).1
           = .error (mkError 403 "FORBIDDEN" "Token session mismatch"))
     ∧ (∀ r : SessionRecord,
         getClaim c "sid" = some (.s session_id) →
         (∀ cp, cap = some cp → require_capability c cp = .ok ()) →
         load_session cfg st session_id t1 = some r →
         getClaim c "sub" ≠ some (.s r.principal_id) →
         (require_session_for_token cfg st tok session_id cap
           (t0 :: t1 :: t2 :: rest)).1
           = .error (mkError 403 "FORBIDDEN" "Token principal mismatch"))
     ∧ (∀ (R : SessionRecord) (now : Int) (jti : String),
         tok = (issue_access_token cfg R now jti).1 →
         session_id ≠ R.session_id →
         (require_session_for_token cfg st tok session_id cap
           (t0 :: t1 :: t2 :: rest)).1
           = .error (mkError 403 "FORBIDDEN" "Token session mismatch"))) := by
  intro cfg st tok session_id cap t0 t1 t2 rest c hver
  refine ⟨fun hne => require_token_sid_mismatch hver hne,
    fun r hsid hcap hload hsub =>
      require_token_principal_mismatch hver hsid hcap hload hsub, ?_⟩
  intro R now jti htok hne
  apply require_token_sid_mismatch hver
  have hc : c = tok.claims := claims_from_token_ok hver
  have hgc : getClaim tok.claims "sid" = some (.s R.session_id) := by
    rw [htok]
    rfl
  rw [hc, hgc]
  intro hcontra
  simp at hcontra
  exact hne hcontra.symm

/-- Witness for C1: the token issued from `recW` (session `ssn_1`) is
rejected `FORBIDDEN` when presented for session `ssn_2`. -/
theorem C1_witness :
    (require_session_for_token cfgW stW tokW "ssn_2" none [250, 250, 250]).1
      = .error (mkError 403 "FORBIDDEN" "Token session mismatch") :=
  (C1_token_session_binding cfgW stW tokW "ssn_2" none 250 250 250 []
    tokW.claims rfl).2.2 recW 200 "rAnDoMjTi" rfl (by decide)

/-! ### Claim C2 -/

/-- Counterexample for claim C2: a relay request presenting a verified
token for session `ssn_1` whose subject `mallory` differs from the stored
record's principal `alice` — but whose `caps` claim is empty — is
rejected 403 `CAPABILITY_DENIED`, not the `FORBIDDEN` the claim asserts
for every cross-principal relay request. -/
theorem C2_counterexample :
    (require_session_for_token cfgW stW tokMallory "ssn_1" (some "execute")
        [250, 250, 250]).1
      = .error (mkError 403 "CAPABILITY_DENIED" "Missing capability: execute")
    ∧ getClaim tokMallory.claims "sub" = some (.s "mallory")
    ∧ load_session cfgW stW "ssn_1" 250 = some recW
    ∧ recW.principal_id ≠ "mallory"
    ∧ "CAPABILITY_DENIED" ≠ "FORBIDDEN" :=
  ⟨rfl, rfl, rfl, by decide, by decide⟩

/-- Claim C2 as amended: `get`/`refresh`/`release` invoked with a
principal other than the stored record's always fail 403 `FORBIDDEN`
(with the store untouched), with no expiry condition — the ownership
check dominates the expiry check; a relay request with a verified token
that passes the session-binding and capability checks likewise always
fails `FORBIDDEN` on a principal mismatch, again before the expiry check,
but a relay token lacking the required capability fails 403
`CAPABILITY_DENIED` before the principal comparison, and a token that
fails verification fails 401. -/
theorem C2_principal_isolation :
    (∀ (cfg : Config) (st : Store) (pid sid jti : String) (r : SessionRecord)
       (t1 t2 : Int) (rest : List Int),
       load_session cfg st sid t1 = some r →
       r.principal_id ≠ pid →
       ((get_owned_session_record cfg st (t1 :: t2 :: rest) pid sid).1
          = .error (mkError 403 "FORBIDDEN" "Session principal mismatch"))
       ∧ ((refresh_sandbox_session cfg st (t1 :: t2 :: rest) pid sid jti).1
          = .error (mkError 403 "FORBIDDEN" "Session principal mismatch"))
       ∧ ((refresh_sandbox_session cfg st (t1 :: t2 :: rest) pid sid jti).2.1
          = st)
       ∧ ((release_sandbox_session cfg st (t1 :: t2 :: rest) pid sid).1
          = .error (mkError 403 "FORBIDDEN" "Session principal mismatch"))
       ∧ ((release_sandbox_session cfg st (t1 :: t2 :: rest) pid sid).2.1
          = st))
  ∧ (∀ (cfg : Config) (st : Store) (tok : Token) (session_id : String)
       (cap : Option String) (t0 t1 t2 : Int) (rest : List Int) (c : Claims)
       (r : SessionRecord),
       claims_from_token cfg tok t0 = .ok c →
       getClaim c "sid" = some (.s session_id) →
       (∀ cp, cap = some cp → require_capability c cp = .ok ()) →
       load_session cfg st session_id t1 = some r →
       getClaim c "sub" ≠ some (.s r.principal_id) →
       (require_session_for_token cfg st tok session_id cap
         (t0 :: t1 :: t2 :: rest)).1
         = .error (mkError 403 "FORBIDDEN" "Token principal mismatch")) := by
  constructor
  · intro cfg st pid sid jti r t1 t2 rest hload hne
    have hget : get_owned_session_record cfg st (t1 :: t2 :: rest) pid sid
        = (.error (mkError 403 "FORBIDDEN" "Session principal mismatch"),
           t2 :: rest) := by
      simp only [get_owned_session_record, tick]
      rw [hload]
      simp [hne]
    refine ⟨congrArg Prod.fst hget, ?_, ?_, ?_, ?_⟩
    · simp only [refresh_sandbox_session]
      rw [hget]
    · simp only [refresh_sandbox_session]
      rw [hget]
    · simp only [release_sandbox_session]
      rw [hget]
    · simp only [release_sandbox_session]
      rw [hget]
  · intro cfg st tok session_id cap t0 t1 t2 rest c r hver hsid hcap hload hsub
    exact require_token_principal_mismatch hver hsid hcap hload hsub

/-- Witness for the amended C2: `mallory` asking for `alice`'s session
record is rejected `FORBIDDEN`. -/
theorem C2_witness :
    (get_owned_session_record cfgW stW [250, 250] "mallory" "ssn_1").1
      = .error (mkError 403 "FORBIDDEN" "Session principal mismatch") :=
  (C2_principal_isolation.1 cfgW stW "mallory" "ssn_1" "jti" recW 250 250 []
    rfl (by decide)).1

/-! ### Claim C4 -/

/-- Counterexample for claim C4: `ensure` reads the clock twice when
building a record — once for `created_at` (read 5) and once for
`session_expires_at` (read 7) — so `session_expires_at` differs from
`created_at + session_max_hours` whenever the two reads differ. -/
theorem C4_counterexample :
    ensure_session_record cfgW emptyStore envC4 "alice" "t-2" .ensure none
        = (.ok recC4, stC4, ⟨[], [], []⟩)
    ∧ recC4.session_expires_at
        ≠ recC4.created_at + 3600 * cfgW.sessionMaxHours := by
  constructor
  · rfl
  · decide

/-- Claim C4 as amended: for every record created by `ensure`,
`created_at` is the first of two successive clock reads and
`session_expires_at` is the second read plus `session_max_hours`; with a
monotone clock `session_expires_at ≥ created_at + session_max_hours`,
with equality exactly when the two reads coincide. -/
theorem C4_expiry_two_reads :
    ∀ (cfg : Config) (st : Store) (pid tid : String) (hint : Option String)
      (t1 t4 t5 t6 t7 : Int) (rest : List Int) (idhex : String)
      (ids : List String) (sb : Sandbox) (boxes : List ProviderResult),
      load_bound_session_id cfg st pid tid t1 = none →
      t4 ≤ t5 →
      ∃ (r : SessionRecord) (st' : Store),
        ensure_session_record cfg st
            ⟨t1 :: t4 :: t5 :: t6 :: t7 :: rest, idhex :: ids, .ok sb :: boxes⟩
            pid tid .ensure hint
          = (.ok r, st', ⟨rest, ids, boxes⟩)
        ∧ r.created_at = t4
        ∧ r.session_expires_at = t5 + 3600 * cfg.sessionMaxHours
        ∧ r.created_at + 3600 * cfg.sessionMaxHours ≤ r.session_expires_at
        ∧ (r.session_expires_at = r.created_at + 3600 * cfg.sessionMaxHours
            ↔ t5 = t4) := by
  intro cfg st pid tid hint t1 t4 t5 t6 t7 rest idhex ids sb boxes hbind hle
  refine ⟨⟨"ssn_" ++ idhex, tid, pid, sb.name, cfg.providerTag,
    sb.dataplane_url, t4, t5 + 3600 * cfg.sessionMaxHours⟩,
    save_binding cfg
      (save_session cfg st
        ⟨"ssn_" ++ idhex, tid, pid, sb.name, cfg.providerTag,
          sb.dataplane_url, t4, t5 + 3600 * cfg.sessionMaxHours⟩ t6)
      pid tid ("ssn_" ++ idhex) (t5 + 3600 * cfg.sessionMaxHours) t7,
    ?_, rfl, rfl, ?_, ?_⟩
  · simp only [ensure_session_record, tick]
    rw [hbind]
    rfl
  · show t4 + 3600 * cfg.sessionMaxHours ≤ t5 + 3600 * cfg.sessionMaxHours
    omega
  · show t5 + 3600 * cfg.sessionMaxHours = t4 + 3600 * cfg.sessionMaxHours
      ↔ t5 = t4
    omega

/-- Witness for the amended C4 at the concrete creation run of
`C4_counterexample`, where the two reads are 5 and 7. -/
theorem C4_witness :
    ∃ (r : SessionRecord) (st' : Store),
      ensure_session_record cfgW emptyStore envC4 "alice" "t-2" .ensure none
        = (.ok r, st', ⟨[], [], []⟩)
      ∧ r.created_at = 5
      ∧ r.session_expires_at = 7 + 3600 * cfgW.sessionMaxHours
      ∧ r.created_at + 3600 * cfgW.sessionMaxHours ≤ r.session_expires_at
      ∧ (r.session_expires_at = r.created_at + 3600 * cfgW.sessionMaxHours
          ↔ (7 : Int) = 5) :=
  C4_expiry_two_reads cfgW emptyStore "alice" "t-2" none 0 5 7 8 9 [] "abc" []
    ⟨"box-2", "http://dp2"⟩ [] rfl (by decide)

/-! ### Claim C8 -/

/-- Claim C8: refresh is a pure cache-touch — on an owned, unexpired
session it re-writes the record and the binding with TTLs recomputed
from the existing `session_expires_at`, the stored record payload (all
its fields, in particular `session_expires_at`, `created_at`,
`sandbox_name` and `dataplane_url`) being exactly the loaded record, and
only a freshly minted token is returned. -/
theorem C8_refresh_is_cache_touch :
    ∀ (cfg : Config) (st : Store) (pid sid jti : String) (r : SessionRecord)
      (t1 t2 tn ts1 ts2 : Int) (rest : List Int),
      load_session cfg st sid t1 = some r →
      r.principal_id = pid →
      t2 ≤ r.session_expires_at →
      ((refresh_sandbox_session cfg st (t1 :: t2 :: tn :: ts1 :: ts2 :: rest)
          pid sid jti).1
        = .ok ((issue_access_token cfg r tn jti).1, tn + 60 * cfg.ttlMinutes))
      ∧ ((refresh_sandbox_session cfg st (t1 :: t2 :: tn :: ts1 :: ts2 :: rest)
          pid sid jti).2.2 = rest)
      ∧ lookupEntry (refresh_sandbox_session cfg st
            (t1 :: t2 :: tn :: ts1 :: ts2 :: rest) pid sid jti).2.1.sessions
          (session_key cfg r.session_id)
          = some (some r, ts1 + ttl_until r.session_expires_at ts1)
      ∧ lookupEntry (refresh_sandbox_session cfg st
            (t1 :: t2 :: tn :: ts1 :: ts2 :: rest) pid sid jti).2.1.bindings
          (binding_key cfg pid r.thread_id)
          = some (some sid, ts2 + ttl_until r.session_expires_at ts2) := by
  intro cfg st pid sid jti r t1 t2 tn ts1 ts2 rest hload hpid hexp
  have hnotlt : ¬ r.session_expires_at < t2 := not_lt.mpr hexp
  have hget : get_owned_session_record cfg st
      (t1 :: t2 :: tn :: ts1 :: ts2 :: rest) pid sid
      = (.ok r, tn :: ts1 :: ts2 :: rest) := by
    simp only [get_owned_session_record, tick]
    rw [hload]
    simp [hpid, hnotlt]
  have href : refresh_sandbox_session cfg st
      (t1 :: t2 :: tn :: ts1 :: ts2 :: rest) pid sid jti
      = (.ok ((issue_access_token cfg r tn jti).1, tn + 60 * cfg.ttlMinutes),
         save_binding cfg (save_session cfg st r ts1) pid r.thread_id sid
           r.session_expires_at ts2,
         rest) := by
    simp only [refresh_sandbox_session]
    rw [hget]
    rfl
  rw [href]
  refine ⟨rfl, rfl, ?_, ?_⟩
  · simp only [save_binding, save_session]
    exact lookupEntry_setEntry_self _ _ _
  · simp only [save_binding, save_session]
    exact lookupEntry_setEntry_self _ _ _

/-- Witness for C8: refreshing `recW` at instants 200..240 leaves the
stored record exactly `recW` with entry expiries recomputed from its
unchanged `session_expires_at`. -/
theorem C8_witness :
    ((refresh_sandbox_session cfgW stW [200, 210, 220, 230, 240] "alice"
        "ssn_1" "J2").1
      = .ok ((issue_access_token cfgW recW 220 "J2").1,
          220 + 60 * cfgW.ttlMinutes))
    ∧ lookupEntry (refresh_sandbox_session cfgW stW [200, 210, 220, 230, 240]
          "alice" "ssn_1" "J2").2.1.sessions (session_key cfgW "ssn_1")
        = some (some recW, 230 + ttl_until recW.session_expires_at 230) := by
  have h := C8_refresh_is_cache_touch cfgW stW "alice" "ssn_1" "J2" recW
    200 210 220 230 240 [] rfl rfl (by decide)
  exact ⟨h.1, h.2.2.1⟩

/-! ### Claim C5 -/

/-- Generated session ids are never the empty string (`ssn_` prefix). -/
theorem takeId_fst_ne_empty (ids : List String) : (takeId ids).1 ≠ "" := by
  cases ids with
  | nil => decide
  | cons i r =>
    show ("ssn_" ++ i) ≠ ""
    intro hcontra
    have hlen := congrArg String.length hcontra
    rw [String.length_append] at hlen
    have h4 : ("ssn_" : String).length = 4 := rfl
    have h0 : ("" : String).length = 0 := rfl
    omega

/-- After a successful creation arm, the store holds the new binding and
the new record, both alive through `session_expires_at`, and the new
session id is non-empty. -/
theorem ensureCreate_ok_post {cfg : Config} {st : Store} {env : Env}
    {pid tid : String} {mode : SandboxSessionMode} {hint : Option String}
    {r : SessionRecord} {st' : Store} {env' : Env}
    (h : ensureCreate cfg st env pid tid mode hint = (.ok r, st', env')) :
    r.session_id ≠ ""
    ∧ (∃ eb, lookupEntry st'.bindings (binding_key cfg pid tid)
        = some (some r.session_id, eb) ∧ r.session_expires_at ≤ eb)
    ∧ (∃ es, lookupEntry st'.sessions (session_key cfg r.session_id)
        = some (some r, es) ∧ r.session_expires_at ≤ es) := by
  unfold ensureCreate at h
  cases mode with
  | get => simp at h
  | ensure =>
    dsimp only at h
    rcases henv : takeBox env.boxes with ⟨pr, boxes1⟩
    rw [henv] at h
    cases pr with
    | err e => simp at h
    | ok sb =>
      dsimp only at h
      rcases hid : takeId env.ids with ⟨sid, ids1⟩
      rw [hid] at h
      dsimp only at h
      rcases h4 : tick env.clk with ⟨t4, clk4⟩
      rw [h4] at h
      dsimp only at h
      rcases h5 : tick clk4 with ⟨t5, clk5⟩
      rw [h5] at h
      dsimp only at h
      rcases h6 : tick clk5 with ⟨t6, clk6⟩
      rw [h6] at h
      dsimp only at h
      rcases h7 : tick clk6 with ⟨t7, clk7⟩
      rw [h7] at h
      dsimp only at h
      simp only [Prod.mk.injEq, Except.ok.injEq] at h
      obtain ⟨hrec, hst, -⟩ := h
      subst hrec
      subst hst
      refine ⟨?_, ⟨t7 + ttl_until (t5 + 3600 * cfg.sessionMaxHours) t7, ?_, ?_⟩,
        ⟨t6 + ttl_until (t5 + 3600 * cfg.sessionMaxHours) t6, ?_, ?_⟩⟩
      · show sid ≠ ""
        have := takeId_fst_ne_empty env.ids
        rw [hid] at this
        exact this
      · simp only [save_binding, save_session]
        exact lookupEntry_setEntry_self _ _ _
      · exact le_add_ttl _ _
      · simp only [save_binding, save_session]
        exact lookupEntry_setEntry_self _ _ _
      · exact le_add_ttl _ _

/-- Claim C5: ensure idempotence — if an `ensure` call for
`(principal, thread)` on a sane store succeeds with record `r`, then a
second sequential `ensure` performed while `r` has neither expired nor
been released returns the very same stored record, leaves the store
untouched, and consumes no fresh session id and no provider sandbox. -/
theorem C5_ensure_idempotent :
    ∀ (cfg : Config) (st : Store) (env : Env) (pid tid : String)
      (mode : SandboxSessionMode) (hint : Option String) (r : SessionRecord)
      (st' : Store) (env' : Env),
      StoreWF cfg st →
      ensure_session_record cfg st env pid tid mode hint = (.ok r, st', env') →
      ∀ (mode2 : SandboxSessionMode) (hint2 : Option String) (ta tb tc : Int)
        (rest : List Int) (ids2 : List String) (boxes2 : List ProviderResult),
        ta ≤ tb → tb ≤ tc → tc ≤ r.session_expires_at →
        ensure_session_record cfg st' ⟨ta :: tb :: tc :: rest, ids2, boxes2⟩
            pid tid mode2 hint2
          = (.ok r, st', ⟨rest, ids2, boxes2⟩) := by
  intro cfg st env pid tid mode hint r st' env' hwf h
  have key : ∃ sid eb es,
      sid ≠ ""
      ∧ lookupEntry st'.bindings (binding_key cfg pid tid)
          = some (some sid, eb)
      ∧ r.session_expires_at ≤ eb
      ∧ lookupEntry st'.sessions (session_key cfg sid) = some (some r, es)
      ∧ r.session_expires_at ≤ es := by
    unfold ensure_session_record at h
    rcases h1 : tick env.clk with ⟨t1, clk1⟩
    rw [h1] at h
    dsimp only at h
    rcases hb : load_bound_session_id cfg st pid tid t1 with _ | sid0
    · rw [hb] at h
      dsimp only at h
      obtain ⟨hne, ⟨eb, hlb, hleb⟩, ⟨es, hls, hles⟩⟩ := ensureCreate_ok_post h
      exact ⟨r.session_id, eb, es, hne, hlb, hleb, hls, hles⟩
    · rw [hb] at h
      dsimp only at h
      rcases h2 : tick clk1 with ⟨t2, clk2⟩
      rw [h2] at h
      dsimp only at h
      rcases hl : load_session cfg st sid0 t2 with _ | ex
      · rw [hl] at h
        dsimp only at h
        obtain ⟨hne, ⟨eb, hlb, hleb⟩, ⟨es, hls, hles⟩⟩ := ensureCreate_ok_post h
        exact ⟨r.session_id, eb, es, hne, hlb, hleb, hls, hles⟩
      · rw [hl] at h
        dsimp only at h
        rcases h3 : tick clk2 with ⟨t3, clk3⟩
        rw [h3] at h
        dsimp only at h
        split at h
        · simp only [Prod.mk.injEq, Except.ok.injEq] at h
          obtain ⟨hex, hst, -⟩ := h
          subst hex
          subst hst
          obtain ⟨hne0, hcb⟩ := load_bound_inv hb
          obtain ⟨eb, hlb, htb⟩ := cacheGetAt_inv hcb
          unfold load_session at hl
          obtain ⟨es, hls, hts⟩ := cacheGetAt_inv hl
          have hes : ex.session_expires_at ≤ es := hwf.1 _ _ _ hls
          have heb : ex.session_expires_at ≤ eb := hwf.2 _ _ _ hlb ex es hls
          exact ⟨sid0, eb, es, hne0, hlb, heb, hls, hes⟩
        · obtain ⟨hne, ⟨eb, hlb, hleb⟩, ⟨es, hls, hles⟩⟩ := ensureCreate_ok_post h
          exact ⟨r.session_id, eb, es, hne, hlb, hleb, hls, hles⟩
  obtain ⟨sid, eb, es, hne, hlb, hleb, hls, hles⟩ := key
  intro mode2 hint2 ta tb tc rest ids2 boxes2 hab hbc hcr
  have hb2 : load_bound_session_id cfg st' pid tid ta = some sid :=
    load_bound_mono (cacheGetAt_mono hlb (by omega)) hne
  have hs2 : load_session cfg st' sid tb = some r := by
    unfold load_session
    exact cacheGetAt_mono hls (by omega)
  simp only [ensure_session_record, tick]
  rw [hb2]
  dsimp only
  rw [hs2]
  dsimp only
  rw [if_pos hcr]

/-- Witness for C5: creating `recC4` on the empty store and then calling
`ensure` again (even in `get` mode, with an empty id and sandbox stream)
returns the identical record with the store untouched. -/
theorem C5_witness :
    ensure_session_record cfgW stC4 ⟨[100, 100, 100], [], []⟩ "alice" "t-2"
        .get none
      = (.ok recC4, stC4, ⟨[], [], []⟩) := by
  have hwf : StoreWF cfgW emptyStore := by
    constructor
    · intro k r e hmem
      simp [lookupEntry, emptyStore] at hmem
    · intro k sid e hmem r e' hmem'
      simp [lookupEntry, emptyStore] at hmem
  exact C5_ensure_idempotent cfgW emptyStore envC4 "alice" "t-2" .ensure none
    recC4 stC4 ⟨[], [], []⟩ hwf rfl .get none 100 100 100 [] [] []
    (by decide) (by decide) (by decide)

end SSAP
